import Mathlib

/-!
Shallow embedding of `src/testvalidator.py` (class `APITestValidator`).

Modelling conventions:
* JSON values are the inductive `Json`; a response body is stored together
  with the outcome of `response.json()` as `Except String Json`, where
  `Except.error msg` models `response.json()` raising
  `requests.exceptions.JSONDecodeError msg` (a `requests.RequestException`
  subclass).
* The network is an oracle `srv : Nat → Request → RequestOutcome`, indexed by
  the number of HTTP calls made so far; `test_endpoint` takes the oracle for
  its single (potential) call, and `run_tests` threads the call counter.
  A deterministic server is an oracle that ignores the index.
* Python exceptions are explicit: `PyExn.requestException` models
  `requests.RequestException` (the only class caught by the `except` clause in
  `test_endpoint`); `PyExn.valueError` models the `ValueError` raised on an
  unsupported method; `PyExn.typeError` models the `TypeError` raised by
  `key in json_data` when `json_data` is not iterable (None/bool/number).
  A result of `Except.error e` from `test_endpoint` or `run_tests` means the
  exception `e` propagated uncaught out of that Python function.
* A Python result dict is the structure `TestResult`; a key absent from the
  dict is a field equal to `none`.
* `test_endpoint` additionally returns the list of HTTP requests it issued,
  so that "no network call occurs" is expressible.
-/

/-- A JSON value, as produced by `response.json()`. -/
inductive Json where
  | null
  | bool (b : Bool)
  | num (n : Int)
  | str (s : String)
  | arr (elems : List Json)
  | obj (fields : List (String × Json))

/-- An outgoing HTTP request: method, full URL, and the JSON payload sent via
the `json=` keyword argument (`none` for GET/DELETE, which pass no payload). -/
structure Request where
  method : String
  url : String
  payload : Option Json

/-- An HTTP response as observed by the code: its status code, the value of
`response.headers.get "Content-Type"`, and the outcome of `response.json()`
(`Except.error msg` models a raised `JSONDecodeError`). -/
structure Response where
  status_code : Nat
  contentType : Option String
  jsonBody : Except String Json

/-- Outcome of one `requests.get/post/put/delete` call: either the call raised
a `requests.RequestException` with message `msg`, or it returned a response. -/
inductive RequestOutcome where
  | failure (msg : String)
  | success (resp : Response)

/-- The Python exceptions relevant to `test_endpoint`. Only
`requestException` is caught by its `except requests.RequestException` clause. -/
inductive PyExn where
  | requestException (msg : String)
  | valueError (msg : String)
  | typeError (msg : String)
deriving DecidableEq, Repr

/-- The verdict stored under the `"result"` key of a test result. -/
inductive Verdict where
  | PASS
  | FAIL
  | ERROR
deriving DecidableEq, Repr

/-- The result dict built by `test_endpoint`. A field equal to `none` models a
key absent from the Python dict. -/
structure TestResult where
  endpoint : String
  method : String
  status : Option Nat
  expected_status : Option Nat
  status_check : Option Bool
  content_check : Option Bool
  missing_keys : Option (List String)
  error : Option String
  result : Verdict
deriving DecidableEq, Repr

/-- One entry of the `endpoints` list passed to `run_tests`; the field values
are those produced by the `ep.get(..., default)` lookups in `run_tests`
(a key missing from the Python dict is a field holding the default). -/
structure EndpointSpec where
  endpoint : String
  expected_status : Nat
  expected_keys : List String
  method : String
  payload : Option Json

/-- Python `needle in hay` on strings: substring test (model of line 45/46 when
`json_data` is a string). -/
def listIsInfixOfB (n : List Char) : List Char → Bool
  | [] => List.isPrefixOf n []
  | b :: bs => List.isPrefixOf n (b :: bs) || listIsInfixOfB n bs

/-- Whether Python `key in json_data` succeeds (True/False) rather than raising
`TypeError`: it succeeds exactly on strings, lists and dicts. -/
def iterableJson : Json → Bool
  | Json.null => false
  | Json.bool _ => false
  | Json.num _ => false
  | Json.str _ => true
  | Json.arr _ => true
  | Json.obj _ => true

/-- The boolean value of Python `key in json_data` on an iterable `json_data`:
substring test on a string, element equality on a list (a string key can only
equal a string element), key lookup on a dict. -/
def pyInB (key : String) (json_data : Json) : Bool :=
  match json_data with
  | Json.str s => listIsInfixOfB key.toList s.toList
  | Json.arr elems => elems.any (fun e => match e with | Json.str s => s == key | _ => false)
  | Json.obj fields => fields.any (fun kv => kv.1 == key)
  | _ => false

/-- Python `key in json_data`: `TypeError` on non-iterable values, otherwise
the boolean `pyInB`. -/
def pyIn (key : String) (json_data : Json) : Except PyExn Bool :=
  match json_data with
  | Json.null => Except.error (PyExn.typeError "argument of type NoneType is not iterable")
  | Json.bool _ => Except.error (PyExn.typeError "argument of type bool is not iterable")
  | Json.num _ => Except.error (PyExn.typeError "argument of type int is not iterable")
  | j => Except.ok (pyInB key j)

/-- Line 45: `all(key in json_data for key in expected_keys)`, with `all`'s
short-circuit evaluation of the generator. -/
def allIn (keys : List String) (json_data : Json) : Except PyExn Bool :=
  match keys with
  | [] => Except.ok true
  | key :: rest =>
    match pyIn key json_data with
    | Except.error e => Except.error e
    | Except.ok b => if b then allIn rest json_data else Except.ok false

/-- Line 46: `[key for key in expected_keys if key not in json_data]`. -/
def missingOf (keys : List String) (json_data : Json) : Except PyExn (List String) :=
  match keys with
  | [] => Except.ok []
  | key :: rest =>
    match pyIn key json_data with
    | Except.error e => Except.error e
    | Except.ok b =>
      match missingOf rest json_data with
      | Except.error e => Except.error e
      | Except.ok m => Except.ok (if b then m else key :: m)

/-- Line 44: `response.json()`; a parse failure raises `JSONDecodeError`,
which is a `requests.RequestException`. -/
def jsonOf (response : Response) : Except PyExn Json :=
  match response.jsonBody with
  | Except.error msg => Except.error (PyExn.requestException msg)
  | Except.ok j => Except.ok j

/-- Lines 39-46: compute `content_check` and `missing_keys`. The guard is
line 43: `if expected_keys and response.headers.get("Content-Type") ==
"application/json"` (truthiness of a list is non-emptiness; the header
comparison is exact string equality). -/
def contentChecks (response : Response) (expected_keys : List String) :
    Except PyExn (Bool × List String) :=
  if !expected_keys.isEmpty && response.contentType == some "application/json" then
    match jsonOf response with
    | Except.error e => Except.error e
    | Except.ok json_data =>
      match allIn expected_keys json_data with
      | Except.error e => Except.error e
      | Except.ok content_check =>
        match missingOf expected_keys json_data with
        | Except.error e => Except.error e
        | Except.ok missing_keys => Except.ok (content_check, missing_keys)
  else Except.ok (true, [])

/-- One `requests.<verb>` call against the network oracle. -/
def sendRequest (env : Request → RequestOutcome) (req : Request) : Except PyExn Response :=
  match env req with
  | RequestOutcome.failure msg => Except.error (PyExn.requestException msg)
  | RequestOutcome.success resp => Except.ok resp

/-- Lines 27-36: the method dispatch chain. Returns the call's outcome and the
list of HTTP requests issued (empty in the `else` branch, which raises
`ValueError "Unsupported HTTP method"` without any network call). -/
def dispatch (env : Request → RequestOutcome) (url method : String) (payload : Option Json) :
    Except PyExn Response × List Request :=
  if method == "GET" then
    (sendRequest env { method := "GET", url := url, payload := none },
     [{ method := "GET", url := url, payload := none }])
  else if method == "POST" then
    (sendRequest env { method := "POST", url := url, payload := payload },
     [{ method := "POST", url := url, payload := payload }])
  else if method == "PUT" then
    (sendRequest env { method := "PUT", url := url, payload := payload },
     [{ method := "PUT", url := url, payload := payload }])
  else if method == "DELETE" then
    (sendRequest env { method := "DELETE", url := url, payload := none },
     [{ method := "DELETE", url := url, payload := none }])
  else
    (Except.error (PyExn.valueError "Unsupported HTTP method"), [])

/-- Lines 66-72: the `except requests.RequestException` clause. A
`requestException` becomes the four-key ERROR dict; any other exception
propagates uncaught. -/
def handleExn (endpoint method : String) (e : PyExn) : Except PyExn TestResult :=
  match e with
  | PyExn.requestException msg =>
    Except.ok { endpoint := endpoint, method := method, status := none,
                expected_status := none, status_check := none, content_check := none,
                missing_keys := none, error := some msg, result := Verdict.ERROR }
  | e => Except.error e

/-- Lines 11-72: `APITestValidator.test_endpoint`. `base_url` is
`self.base_url`. Returns the function's outcome (`Except.error e` meaning the
exception `e` escaped) together with the list of HTTP requests issued. -/
def test_endpoint (env : Request → RequestOutcome) (base_url endpoint : String)
    (expected_status : Nat) (expected_keys : List String) (method : String)
    (payload : Option Json) : Except PyExn TestResult × List Request :=
  match dispatch env (base_url ++ endpoint) method payload with
  | (Except.error e, calls) => (handleExn endpoint method e, calls)
  | (Except.ok response, calls) =>
    match contentChecks response expected_keys with
    | Except.error e => (handleExn endpoint method e, calls)
    | Except.ok (content_check, missing_keys) =>
      (Except.ok { endpoint := endpoint, method := method,
                   status := some response.status_code,
                   expected_status := some expected_status,
                   status_check := some (response.status_code == expected_status),
                   content_check := some content_check,
                   missing_keys := some missing_keys,
                   error := none,
                   result := if (response.status_code == expected_status) && content_check
                             then Verdict.PASS else Verdict.FAIL },
       calls)

/-- Lines 74-90: `APITestValidator.run_tests` (the result-building loop; the
printing of the summary is output-only and is not modelled). `calls` is the
number of HTTP calls made so far, used to index the network oracle. An
uncaught exception from `test_endpoint` aborts the loop (and the whole Python
program), discarding the results accumulated so far. -/
def run_tests (srv : Nat → Request → RequestOutcome) (base_url : String) (calls : Nat)
    (endpoints : List EndpointSpec) : Except PyExn (List TestResult) × List Request :=
  match endpoints with
  | [] => (Except.ok [], [])
  | ep :: rest =>
    match test_endpoint (srv calls) base_url ep.endpoint ep.expected_status
        ep.expected_keys ep.method ep.payload with
    | (Except.error e, t) => (Except.error e, t)
    | (Except.ok r, t) =>
      match run_tests srv base_url (calls + t.length) rest with
      | (Except.error e, ts) => (Except.error e, t ++ ts)
      | (Except.ok l, ts) => (Except.ok (r :: l), t ++ ts)

/-! Infrastructure lemmas about the checker and dispatcher. -/

theorem pyIn_iterable (k : String) (j : Json) (h : iterableJson j = true) :
    pyIn k j = Except.ok (pyInB k j) := by
  cases j <;> first | rfl | simp_all [iterableJson]

theorem allIn_ok (j : Json) (h : iterableJson j = true) (keys : List String) :
    allIn keys j = Except.ok (keys.all (fun k => pyInB k j)) := by
  induction keys with
  | nil => rfl
  | cons k rest ih =>
    simp only [allIn, pyIn_iterable k j h, List.all_cons]
    cases hb : pyInB k j <;> simp [hb, ih]

theorem missingOf_ok (j : Json) (h : iterableJson j = true) (keys : List String) :
    missingOf keys j = Except.ok (keys.filter (fun k => !pyInB k j)) := by
  induction keys with
  | nil => rfl
  | cons k rest ih =>
    simp only [missingOf, pyIn_iterable k j h, ih, List.filter_cons]
    cases hb : pyInB k j <;> simp [hb]

theorem contentChecks_json (resp : Response) (keys : List String) (j : Json)
    (hk : keys ≠ []) (hct : resp.contentType = some "application/json")
    (hj : resp.jsonBody = Except.ok j) (hit : iterableJson j = true) :
    contentChecks resp keys =
      Except.ok (keys.all (fun k => pyInB k j), keys.filter (fun k => !pyInB k j)) := by
  have hne : keys.isEmpty = false := by simpa using hk
  simp [contentChecks, hne, hct, jsonOf, hj, allIn_ok j hit, missingOf_ok j hit]

theorem contentChecks_skip (resp : Response) (keys : List String)
    (h : keys = [] ∨ resp.contentType ≠ some "application/json") :
    contentChecks resp keys = Except.ok (true, []) := by
  rcases h with h | h
  · simp [contentChecks, h]
  · have hb : (resp.contentType == some "application/json") = false := by
      simpa using h
    simp [contentChecks, hb]

theorem contentChecks_parse_exn (resp : Response) (keys : List String) (msg : String)
    (hk : keys ≠ []) (hct : resp.contentType = some "application/json")
    (hj : resp.jsonBody = Except.error msg) :
    contentChecks resp keys = Except.error (PyExn.requestException msg) := by
  have hne : keys.isEmpty = false := by simpa using hk
  simp [contentChecks, hne, hct, jsonOf, hj]

theorem dispatch_unsupported (env : Request → RequestOutcome) (u m : String) (p : Option Json)
    (h1 : m ≠ "GET") (h2 : m ≠ "POST") (h3 : m ≠ "PUT") (h4 : m ≠ "DELETE") :
    dispatch env u m p = (Except.error (PyExn.valueError "Unsupported HTTP method"), []) := by
  simp [dispatch, h1, h2, h3, h4]

theorem dispatch_ok_calls (env : Request → RequestOutcome) (u m : String) (p : Option Json)
    (resp : Response) (calls : List Request)
    (h : dispatch env u m p = (Except.ok resp, calls)) : calls.length = 1 := by
  unfold dispatch at h
  split at h
  · simp only [Prod.mk.injEq] at h; simp [← h.2]
  · split at h
    · simp only [Prod.mk.injEq] at h; simp [← h.2]
    · split at h
      · simp only [Prod.mk.injEq] at h; simp [← h.2]
      · split at h
        · simp only [Prod.mk.injEq] at h; simp [← h.2]
        · simp only [Prod.mk.injEq] at h; exact absurd h.1 (by simp)

theorem test_endpoint_of_ok (env : Request → RequestOutcome) (base ep : String) (st : Nat)
    (keys : List String) (m : String) (p : Option Json) (resp : Response)
    (calls : List Request) (c : Bool) (miss : List String)
    (hd : dispatch env (base ++ ep) m p = (Except.ok resp, calls))
    (hcc : contentChecks resp keys = Except.ok (c, miss)) :
    test_endpoint env base ep st keys m p =
      (Except.ok { endpoint := ep, method := m, status := some resp.status_code,
                   expected_status := some st,
                   status_check := some (resp.status_code == st),
                   content_check := some c, missing_keys := some miss, error := none,
                   result := if (resp.status_code == st) && c then Verdict.PASS
                             else Verdict.FAIL },
       calls) := by
  simp [test_endpoint, hd, hcc]

theorem test_endpoint_of_exn (env : Request → RequestOutcome) (base ep : String) (st : Nat)
    (keys : List String) (m : String) (p : Option Json) (e : PyExn) (calls : List Request)
    (hd : dispatch env (base ++ ep) m p = (Except.error e, calls)) :
    test_endpoint env base ep st keys m p = (handleExn ep m e, calls) := by
  simp [test_endpoint, hd]

theorem test_endpoint_of_cc_exn (env : Request → RequestOutcome) (base ep : String) (st : Nat)
    (keys : List String) (m : String) (p : Option Json) (resp : Response)
    (calls : List Request) (e : PyExn)
    (hd : dispatch env (base ++ ep) m p = (Except.ok resp, calls))
    (hcc : contentChecks resp keys = Except.error e) :
    test_endpoint env base ep st keys m p = (handleExn ep m e, calls) := by
  simp [test_endpoint, hd, hcc]

theorem pyInB_obj_iff (k : String) (fields : List (String × Json)) :
    pyInB k (Json.obj fields) = true ↔ k ∈ fields.map Prod.fst := by
  simp [pyInB, List.any_eq_true, List.mem_map]

theorem pyInB_arr_iff (k : String) (xs : List Json) :
    pyInB k (Json.arr xs) = true ↔ Json.str k ∈ xs := by
  simp only [pyInB, List.any_eq_true]
  constructor
  · rintro ⟨e, he, hb⟩
    cases e with
    | str s =>
      have hs : s = k := by simpa using hb
      subst hs; exact he
    | null => simp at hb
    | bool b => simp at hb
    | num n => simp at hb
    | arr l => simp at hb
    | obj l => simp at hb
  · intro h
    exact ⟨Json.str k, h, by simp⟩

theorem allIn_not_iterable (j : Json) (h : iterableJson j = false) (k : String)
    (rest : List String) :
    ∃ msg, allIn (k :: rest) j = Except.error (PyExn.typeError msg) := by
  cases j <;> first | exact ⟨_, rfl⟩ | simp_all [iterableJson]

theorem jsonOf_ok_iff (resp : Response) (j : Json) :
    jsonOf resp = Except.ok j ↔ resp.jsonBody = Except.ok j := by
  unfold jsonOf
  cases resp.jsonBody <;> simp

theorem contentChecks_ok_inv (resp : Response) (keys : List String) (c : Bool)
    (miss : List String) (h : contentChecks resp keys = Except.ok (c, miss)) :
    (c = true ∧ miss = []) ∨
    ∃ j, resp.jsonBody = Except.ok j ∧ iterableJson j = true ∧
      c = keys.all (fun k => pyInB k j) ∧ miss = keys.filter (fun k => !pyInB k j) := by
  unfold contentChecks at h
  split at h
  · rename_i hguard
    split at h
    · simp at h
    · rename_i j hjo
      split at h
      · simp at h
      · rename_i cb hall
        split at h
        · simp at h
        · rename_i mk hmiss
          cases hit : iterableJson j with
          | false =>
            cases keys with
            | nil => simp at hguard
            | cons k rest =>
              obtain ⟨msg, he⟩ := allIn_not_iterable j hit k rest
              rw [he] at hall
              simp at hall
          | true =>
            rw [allIn_ok j hit keys] at hall
            rw [missingOf_ok j hit keys] at hmiss
            simp at hall hmiss h
            refine Or.inr ⟨j, (jsonOf_ok_iff resp j).1 hjo, hit, ?_, ?_⟩
            · rw [← h.1, ← hall]
            · rw [← h.2, ← hmiss]
  · simp at h
    exact Or.inl ⟨h.1, h.2⟩

theorem contentChecks_missing_sublist (resp : Response) (keys : List String)
    (c : Bool) (miss : List String) (h : contentChecks resp keys = Except.ok (c, miss)) :
    miss.Sublist keys := by
  rcases contentChecks_ok_inv resp keys c miss h with ⟨-, hm⟩ | ⟨j, -, -, -, hm⟩
  · rw [hm]; exact List.nil_sublist keys
  · rw [hm]; exact List.filter_sublist keys

theorem test_endpoint_ok_inv (env : Request → RequestOutcome) (base ep : String) (st : Nat)
    (keys : List String) (m : String) (p : Option Json) (r : TestResult)
    (h : (test_endpoint env base ep st keys m p).1 = Except.ok r) :
    (∃ msg, r = { endpoint := ep, method := m, status := none, expected_status := none,
                  status_check := none, content_check := none, missing_keys := none,
                  error := some msg, result := Verdict.ERROR }) ∨
    (∃ resp c miss,
       contentChecks resp keys = Except.ok (c, miss) ∧
       r = { endpoint := ep, method := m, status := some resp.status_code,
             expected_status := some st, status_check := some (resp.status_code == st),
             content_check := some c, missing_keys := some miss, error := none,
             result := if (resp.status_code == st) && c then Verdict.PASS
                       else Verdict.FAIL }) := by
  unfold test_endpoint at h
  split at h
  · rename_i e calls hd
    cases e with
    | requestException msg =>
      simp [handleExn] at h
      exact Or.inl ⟨msg, h.symm⟩
    | valueError msg => simp [handleExn] at h
    | typeError msg => simp [handleExn] at h
  · rename_i resp calls hd
    split at h
    · rename_i e hcc
      cases e with
      | requestException msg =>
        simp [handleExn] at h
        exact Or.inl ⟨msg, h.symm⟩
      | valueError msg => simp [handleExn] at h
      | typeError msg => simp [handleExn] at h
    · rename_i cc mk hcc
      exact Or.inr ⟨resp, cc, mk, hcc, (Except.ok.inj h).symm⟩

theorem test_endpoint_stamps (env : Request → RequestOutcome) (base ep : String) (st : Nat)
    (keys : List String) (m : String) (p : Option Json) (r : TestResult)
    (h : (test_endpoint env base ep st keys m p).1 = Except.ok r) :
    r.endpoint = ep ∧ r.method = m := by
  rcases test_endpoint_ok_inv env base ep st keys m p r h with ⟨msg, hr⟩ | ⟨resp, c, miss, -, hr⟩
  · rw [hr]; exact ⟨rfl, rfl⟩
  · rw [hr]; exact ⟨rfl, rfl⟩

theorem pyInB_obj_eq (k : String) (fields : List (String × Json)) :
    pyInB k (Json.obj fields) = decide (k ∈ fields.map Prod.fst) := by
  by_cases hm : k ∈ fields.map Prod.fst
  · rw [(pyInB_obj_iff k fields).2 hm, decide_eq_true hm]
  · have h1 : pyInB k (Json.obj fields) = false := by
      cases hx : pyInB k (Json.obj fields)
      · rfl
      · exact absurd ((pyInB_obj_iff k fields).1 hx) hm
    rw [h1, decide_eq_false hm]

/-- Concrete response used by witnesses: JSON content type, status 200, body a
JSON object with single key "id". -/
def wRespObj : Response :=
  ⟨200, some "application/json", Except.ok (Json.obj [("id", Json.num 1)])⟩

/-- Concrete response used by witnesses: JSON content type, status 200, body a
JSON array `["id", 3]`. -/
def wRespArr : Response :=
  ⟨200, some "application/json", Except.ok (Json.arr [Json.str "id", Json.num 3])⟩

/-- C6: every `missing_keys` list in a result of `test_endpoint` is a
subsequence of `expected_keys`: its elements occur in `expected_keys` and in
the same relative order. -/
theorem c6_missing_keys_sublist (env : Request → RequestOutcome) (base ep : String)
    (st : Nat) (keys : List String) (m : String) (p : Option Json) (r : TestResult)
    (mk : List String)
    (h : (test_endpoint env base ep st keys m p).1 = Except.ok r)
    (hmk : r.missing_keys = some mk) :
    mk.Sublist keys := by
  rcases test_endpoint_ok_inv env base ep st keys m p r h with
    ⟨msg, hr⟩ | ⟨resp, c, miss, hcc, hr⟩
  · rw [hr] at hmk; simp at hmk
  · rw [hr] at hmk
    simp at hmk
    rw [← hmk]
    exact contentChecks_missing_sublist resp keys c miss hcc

/-- Witness for C6: a concrete run where `missing_keys = ["x"]` and
`expected_keys = ["id", "x"]`; the theorem yields the subsequence fact. -/
theorem c6_witness : List.Sublist ["x"] ["id", "x"] :=
  c6_missing_keys_sublist (fun _ => RequestOutcome.success wRespObj)
    "http://h" "/u" 200 ["id", "x"] "GET" none
    { endpoint := "/u", method := "GET", status := some 200, expected_status := some 200,
      status_check := some true, content_check := some false, missing_keys := some ["x"],
      error := none, result := Verdict.FAIL }
    ["x"] rfl rfl

/-- C7: if a result of `test_endpoint` has a non-empty `missing_keys`, then its
`content_check` is false and `expected_keys` is non-empty. -/
theorem c7_missing_nonempty (env : Request → RequestOutcome) (base ep : String)
    (st : Nat) (keys : List String) (m : String) (p : Option Json) (r : TestResult)
    (mk : List String)
    (h : (test_endpoint env base ep st keys m p).1 = Except.ok r)
    (hmk : r.missing_keys = some mk) (hne : mk ≠ []) :
    r.content_check = some false ∧ keys ≠ [] := by
  rcases test_endpoint_ok_inv env base ep st keys m p r h with
    ⟨msg, hr⟩ | ⟨resp, c, miss, hcc, hr⟩
  · rw [hr] at hmk; simp at hmk
  · rw [hr] at hmk
    simp at hmk
    subst hmk
    rcases contentChecks_ok_inv resp keys c miss hcc with ⟨hc, hm⟩ | ⟨j, -, -, hc, hm⟩
    · exact absurd hm hne
    · obtain ⟨k, hk⟩ := List.exists_mem_of_ne_nil miss hne
      rw [hm, List.mem_filter] at hk
      have hkb : pyInB k j = false := by simpa using hk.2
      have hcf : c = false := by
        cases hcv : c with
        | false => rfl
        | true =>
          have hall : keys.all (fun k => pyInB k j) = true := by rw [← hc, hcv]
          have hpt := List.all_eq_true.mp hall k hk.1
          rw [hkb] at hpt
          exact absurd hpt (by decide)
      constructor
      · rw [hr]; simp [hcf]
      · exact List.ne_nil_of_mem hk.1

/-- Witness for C7: the run of the C6 witness, where `missing_keys = ["x"]` is
non-empty; the theorem yields `content_check = some false` and
`expected_keys ≠ []`. -/
theorem c7_witness :
    TestResult.content_check
      { endpoint := "/u", method := "GET", status := some 200, expected_status := some 200,
        status_check := some true, content_check := some false, missing_keys := some ["x"],
        error := none, result := Verdict.FAIL } = some false ∧
    (["id", "x"] : List String) ≠ [] :=
  c7_missing_nonempty (fun _ => RequestOutcome.success wRespObj)
    "http://h" "/u" 200 ["id", "x"] "GET" none
    { endpoint := "/u", method := "GET", status := some 200, expected_status := some 200,
      status_check := some true, content_check := some false, missing_keys := some ["x"],
      error := none, result := Verdict.FAIL }
    ["x"] rfl rfl (by decide)

/-- C9: a result of `test_endpoint` whose verdict is ERROR carries only the
endpoint, method, error and verdict: the status, expected status, status
check, content check and missing keys fields are all absent, and the error
message is present. -/
theorem c9_error_result_shape (env : Request → RequestOutcome) (base ep : String)
    (st : Nat) (keys : List String) (m : String) (p : Option Json) (r : TestResult)
    (h : (test_endpoint env base ep st keys m p).1 = Except.ok r)
    (hv : r.result = Verdict.ERROR) :
    r.status = none ∧ r.expected_status = none ∧ r.status_check = none ∧
    r.content_check = none ∧ r.missing_keys = none ∧ r.error.isSome = true := by
  rcases test_endpoint_ok_inv env base ep st keys m p r h with
    ⟨msg, hr⟩ | ⟨resp, c, miss, hcc, hr⟩
  · rw [hr]; exact ⟨rfl, rfl, rfl, rfl, rfl, rfl⟩
  · rw [hr] at hv
    simp [ite_eq_iff] at hv

/-- Witness for C9: a connection failure produces an ERROR result, and the
theorem yields the absent-fields shape for it. -/
theorem c9_witness :
    TestResult.status
      { endpoint := "/e", method := "GET", status := none, expected_status := none,
        status_check := none, content_check := none, missing_keys := none,
        error := some "boom", result := Verdict.ERROR } = none ∧
    TestResult.expected_status
      { endpoint := "/e", method := "GET", status := none, expected_status := none,
        status_check := none, content_check := none, missing_keys := none,
        error := some "boom", result := Verdict.ERROR } = none ∧
    TestResult.status_check
      { endpoint := "/e", method := "GET", status := none, expected_status := none,
        status_check := none, content_check := none, missing_keys := none,
        error := some "boom", result := Verdict.ERROR } = none ∧
    TestResult.content_check
      { endpoint := "/e", method := "GET", status := none, expected_status := none,
        status_check := none, content_check := none, missing_keys := none,
        error := some "boom", result := Verdict.ERROR } = none ∧
    TestResult.missing_keys
      { endpoint := "/e", method := "GET", status := none, expected_status := none,
        status_check := none, content_check := none, missing_keys := none,
        error := some "boom", result := Verdict.ERROR } = none ∧
    (TestResult.error
      { endpoint := "/e", method := "GET", status := none, expected_status := none,
        status_check := none, content_check := none, missing_keys := none,
        error := some "boom", result := Verdict.ERROR }).isSome = true :=
  c9_error_result_shape (fun _ => RequestOutcome.failure "boom")
    "http://h" "/e" 200 [] "GET" none
    { endpoint := "/e", method := "GET", status := none, expected_status := none,
      status_check := none, content_check := none, missing_keys := none,
      error := some "boom", result := Verdict.ERROR }
    rfl rfl

/-- C3: when the content-type header indicates JSON (the code compares it for
equality with "application/json"), `expectedKeys` is non-empty and the body
parses to a JSON object, `contentCheck` is true iff every expected key is a
top-level key of the object and `missingKeys` is the subsequence of
`expectedKeys` absent from the object; when the content-type is not JSON or
`expectedKeys` is empty, `contentCheck` is true and `missingKeys` is empty. -/
theorem c3_content_check_object (resp : Response) (keys : List String) :
    (∀ fields : List (String × Json),
       keys ≠ [] → resp.contentType = some "application/json" →
       resp.jsonBody = Except.ok (Json.obj fields) →
       ∃ c miss, contentChecks resp keys = Except.ok (c, miss) ∧
         (c = true ↔ ∀ k ∈ keys, k ∈ fields.map Prod.fst) ∧
         miss = keys.filter (fun k => !decide (k ∈ fields.map Prod.fst))) ∧
    ((keys = [] ∨ resp.contentType ≠ some "application/json") →
       contentChecks resp keys = Except.ok (true, [])) := by
  constructor
  · intro fields hk hct hj
    have h := contentChecks_json resp keys (Json.obj fields) hk hct hj rfl
    refine ⟨_, _, h, ?_, ?_⟩
    · simp [List.all_eq_true, pyInB_obj_iff]
    · refine List.filter_congr ?_
      intro k hkk
      rw [pyInB_obj_eq]
  · exact contentChecks_skip resp keys

/-- Witness for C3: body `{"id": 1}` against expected keys `["id", "x"]`. -/
theorem c3_witness :
    ∃ c miss, contentChecks wRespObj ["id", "x"] = Except.ok (c, miss) ∧
      (c = true ↔ ∀ k ∈ (["id", "x"] : List String),
        k ∈ ([("id", Json.num 1)] : List (String × Json)).map Prod.fst) ∧
      miss = (["id", "x"] : List String).filter
        (fun k => !decide (k ∈ ([("id", Json.num 1)] : List (String × Json)).map Prod.fst)) :=
  (c3_content_check_object wRespObj ["id", "x"]).1 [("id", Json.num 1)]
    (by decide) rfl rfl

/-- C10: when the content-type header is exactly "application/json",
`expectedKeys` is non-empty and the body parses to a JSON array, the content
check tests each expected key for membership among the array's elements:
`contentCheck` is true iff every key equals some element, and `missingKeys`
consists exactly of the keys equal to no element (in `expectedKeys` order). -/
theorem c10_content_check_array (resp : Response) (keys : List String) (xs : List Json)
    (hk : keys ≠ []) (hct : resp.contentType = some "application/json")
    (hj : resp.jsonBody = Except.ok (Json.arr xs)) :
    ∃ c miss, contentChecks resp keys = Except.ok (c, miss) ∧
      (c = true ↔ ∀ k ∈ keys, Json.str k ∈ xs) ∧
      (∀ k, k ∈ miss ↔ (k ∈ keys ∧ Json.str k ∉ xs)) ∧
      miss.Sublist keys := by
  have h := contentChecks_json resp keys (Json.arr xs) hk hct hj rfl
  refine ⟨_, _, h, ?_, ?_, List.filter_sublist keys⟩
  · simp [List.all_eq_true, pyInB_arr_iff]
  · intro k
    rw [List.mem_filter]
    constructor
    · rintro ⟨hkk, hkb⟩
      refine ⟨hkk, fun hmem => ?_⟩
      rw [(pyInB_arr_iff k xs).2 hmem] at hkb
      simp at hkb
    · rintro ⟨hkk, hmem⟩
      refine ⟨hkk, ?_⟩
      cases hx : pyInB k (Json.arr xs)
      · rfl
      · exact absurd ((pyInB_arr_iff k xs).1 hx) hmem

/-- Witness for C10: array body `["id", 3]` against expected keys
`["id", "x"]`. -/
theorem c10_witness :
    ∃ c miss, contentChecks wRespArr ["id", "x"] = Except.ok (c, miss) ∧
      (c = true ↔ ∀ k ∈ (["id", "x"] : List String),
        Json.str k ∈ [Json.str "id", Json.num 3]) ∧
      (∀ k, k ∈ miss ↔ (k ∈ (["id", "x"] : List String) ∧
        Json.str k ∉ [Json.str "id", Json.num 3])) ∧
      miss.Sublist ["id", "x"] :=
  c10_content_check_array wRespArr ["id", "x"] [Json.str "id", Json.num 3]
    (by decide) rfl rfl

theorem run_tests_cons_ok (srv : Nat → Request → RequestOutcome) (base : String) (n : Nat)
    (spec : EndpointSpec) (rest : List EndpointSpec) (r : TestResult) (t : List Request)
    (h : test_endpoint (srv n) base spec.endpoint spec.expected_status spec.expected_keys
          spec.method spec.payload = (Except.ok r, t)) :
    run_tests srv base n (spec :: rest) =
      (match run_tests srv base (n + t.length) rest with
       | (Except.error e, ts) => (Except.error e, t ++ ts)
       | (Except.ok l, ts) => (Except.ok (r :: l), t ++ ts)) := by
  conv_lhs => rw [run_tests]
  rw [h]

/-- A response with status 404, no content-type header, body null. -/
def wResp404 : Response := ⟨404, none, Except.ok Json.null⟩

/-- A response declaring JSON whose body fails to parse. -/
def wRespBadJson : Response := ⟨200, some "application/json", Except.error "Expecting value"⟩

/-- An oracle whose every call returns the unparsable-JSON response. -/
def wEnvBadJson : Request → RequestOutcome := fun _ => RequestOutcome.success wRespBadJson

/-- An always-healthy oracle: every call returns status 200, no content type,
null body. -/
def wEnvOk : Nat → Request → RequestOutcome :=
  fun _ _ => RequestOutcome.success ⟨200, none, Except.ok Json.null⟩

/-- C2 counterexample: a response IS obtained (the oracle answers every
request with a status-500 response), and the actual status 500 differs from
the expected 200; yet the verdict is ERROR, not FAIL, because the
declared-JSON body fails to parse and the raised JSONDecodeError is caught as
a RequestException. This refutes "whenever the actual status code differs
from expectedStatus ... the verdict is FAIL regardless of the content
check". -/
theorem c2_counterexample :
    (test_endpoint
        (fun _ => RequestOutcome.success
          ⟨500, some "application/json", Except.error "Expecting value"⟩)
        "http://h" "/e" 200 ["id"] "GET" none).1 =
      Except.ok { endpoint := "/e", method := "GET", status := none,
                  expected_status := none, status_check := none, content_check := none,
                  missing_keys := none, error := some "Expecting value",
                  result := Verdict.ERROR } := by
  rfl

/-- C2 (amended): for every endpoint test in which a response was obtained AND
the content check completed without raising (in particular, any required JSON
parsing succeeded), the verdict is PASS iff the status check and content
check both hold, and FAIL otherwise; whenever the actual status differs from
the expected status, the status check is false and the verdict is FAIL. -/
theorem c2_verdict_pass_fail (env : Request → RequestOutcome) (base ep : String)
    (st : Nat) (keys : List String) (m : String) (p : Option Json) (resp : Response)
    (calls : List Request) (c : Bool) (miss : List String)
    (hd : dispatch env (base ++ ep) m p = (Except.ok resp, calls))
    (hcc : contentChecks resp keys = Except.ok (c, miss)) :
    ∃ r, (test_endpoint env base ep st keys m p).1 = Except.ok r ∧
      r.status_check = some (resp.status_code == st) ∧
      r.content_check = some c ∧
      (r.result = Verdict.PASS ↔ (resp.status_code = st ∧ c = true)) ∧
      (r.result = Verdict.PASS ∨ r.result = Verdict.FAIL) ∧
      (resp.status_code ≠ st → r.status_check = some false ∧ r.result = Verdict.FAIL) := by
  have h := test_endpoint_of_ok env base ep st keys m p resp calls c miss hd hcc
  refine ⟨{ endpoint := ep, method := m, status := some resp.status_code,
            expected_status := some st, status_check := some (resp.status_code == st),
            content_check := some c, missing_keys := some miss, error := none,
            result := if (resp.status_code == st) && c then Verdict.PASS
                      else Verdict.FAIL },
          by rw [h], rfl, rfl, ?_, ?_, ?_⟩
  · by_cases hs : resp.status_code = st
    · have hb : (resp.status_code == st) = true := by simpa using hs
      cases c <;> simp [hb, hs]
    · have hb : (resp.status_code == st) = false := by simpa using hs
      cases c <;> simp [hb, hs]
  · by_cases hb : ((resp.status_code == st) && c) = true
    · left
      show (if (resp.status_code == st) && c then Verdict.PASS else Verdict.FAIL) =
        Verdict.PASS
      rw [if_pos hb]
    · right
      show (if (resp.status_code == st) && c then Verdict.PASS else Verdict.FAIL) =
        Verdict.FAIL
      rw [if_neg hb]
  · intro hs
    have hb : (resp.status_code == st) = false := by simpa using hs
    refine ⟨by rw [hb], ?_⟩
    show (if (resp.status_code == st) && c then Verdict.PASS else Verdict.FAIL) =
      Verdict.FAIL
    simp [hb]

/-- Witness for C2 at a 404 response with no JSON content: status mismatch
gives FAIL with a false status check. -/
theorem c2_witness :
    ∃ r, (test_endpoint (fun _ => RequestOutcome.success wResp404)
            "http://h" "/p" 200 [] "GET" none).1 = Except.ok r ∧
      r.status_check = some ((404 : Nat) == 200) ∧
      r.content_check = some true ∧
      (r.result = Verdict.PASS ↔ ((404 : Nat) = 200 ∧ true = true)) ∧
      (r.result = Verdict.PASS ∨ r.result = Verdict.FAIL) ∧
      ((404 : Nat) ≠ 200 → r.status_check = some false ∧ r.result = Verdict.FAIL) :=
  c2_verdict_pass_fail (fun _ => RequestOutcome.success wResp404) "http://h" "/p" 200 []
    "GET" none wResp404 [{ method := "GET", url := "http://h" ++ "/p", payload := none }]
    true [] rfl rfl

/-- C4: if the response declares content-type application/json, the expected
keys are non-empty and the body fails to parse as JSON, the endpoint's test
ends with verdict ERROR carrying the parse error's description (the whole
test fails, not just the content check), and `run_tests` still tests the
remaining endpoints, prepending the ERROR result to their results. -/
theorem c4_parse_error (env : Request → RequestOutcome) (base ep : String) (st : Nat)
    (keys : List String) (m : String) (p : Option Json) (resp : Response)
    (calls : List Request) (msg : String)
    (hk : keys ≠ []) (hct : resp.contentType = some "application/json")
    (hj : resp.jsonBody = Except.error msg)
    (hd : dispatch env (base ++ ep) m p = (Except.ok resp, calls)) :
    (test_endpoint env base ep st keys m p).1 =
      Except.ok { endpoint := ep, method := m, status := none, expected_status := none,
                  status_check := none, content_check := none, missing_keys := none,
                  error := some msg, result := Verdict.ERROR } ∧
    ∀ (srv : Nat → Request → RequestOutcome) (n : Nat) (rest : List EndpointSpec)
      (l : List TestResult) (ts : List Request),
      srv n = env →
      run_tests srv base (n + 1) rest = (Except.ok l, ts) →
      (run_tests srv base n (⟨ep, st, keys, m, p⟩ :: rest)).1 =
        Except.ok ({ endpoint := ep, method := m, status := none, expected_status := none,
                     status_check := none, content_check := none, missing_keys := none,
                     error := some msg, result := Verdict.ERROR } :: l) := by
  have hcc := contentChecks_parse_exn resp keys msg hk hct hj
  have hte := test_endpoint_of_cc_exn env base ep st keys m p resp calls
    (PyExn.requestException msg) hd hcc
  have hlen := dispatch_ok_calls env (base ++ ep) m p resp calls hd
  constructor
  · rw [hte]; rfl
  · intro srv n rest l ts hsrv hrest
    have hte' : test_endpoint (srv n) base ep st keys m p =
        (Except.ok { endpoint := ep, method := m, status := none, expected_status := none,
                     status_check := none, content_check := none, missing_keys := none,
                     error := some msg, result := Verdict.ERROR }, calls) := by
      rw [hsrv]; exact hte
    have hc := run_tests_cons_ok srv base n ⟨ep, st, keys, m, p⟩ rest _ calls hte'
    rw [hlen] at hc
    rw [hrest] at hc
    rw [hc]

/-- The PASS result produced for the witness endpoint "/ok" (no expected
keys). -/
def wOkResult : TestResult :=
  { endpoint := "/ok", method := "GET", status := some 200, expected_status := some 200,
    status_check := some true, content_check := some true, missing_keys := some [],
    error := none, result := Verdict.PASS }

/-- Witness for C4: "/bad" gets an unparsable declared-JSON body, "/ok" (no
expected keys) is still tested afterwards and passes. -/
theorem c4_witness :
    (test_endpoint wEnvBadJson "http://h" "/bad" 200 ["id"] "GET" none).1 =
      Except.ok { endpoint := "/bad", method := "GET", status := none,
                  expected_status := none, status_check := none, content_check := none,
                  missing_keys := none, error := some "Expecting value",
                  result := Verdict.ERROR } ∧
    (run_tests (fun _ => wEnvBadJson) "http://h" 0
        [⟨"/bad", 200, ["id"], "GET", none⟩, ⟨"/ok", 200, [], "GET", none⟩]).1 =
      Except.ok ({ endpoint := "/bad", method := "GET", status := none,
                   expected_status := none, status_check := none, content_check := none,
                   missing_keys := none, error := some "Expecting value",
                   result := Verdict.ERROR } :: [wOkResult]) := by
  have h := c4_parse_error wEnvBadJson "http://h" "/bad" 200 ["id"] "GET" none
    wRespBadJson [{ method := "GET", url := "http://h" ++ "/bad", payload := none }]
    "Expecting value" (by decide) rfl rfl rfl
  exact ⟨h.1, h.2 (fun _ => wEnvBadJson) 0 [⟨"/ok", 200, [], "GET", none⟩] [wOkResult]
    [{ method := "GET", url := "http://h" ++ "/ok", payload := none }] rfl rfl⟩

/-- C1 counterexample: with an unsupported method "PATCH" no network call
occurs, but contrary to the claim the failure is NOT local: `run_tests` on
`[PATCH spec, GET spec]` aborts with an uncaught ValueError, records no
ERROR result, and never tests the subsequent "/b" endpoint even though the
server is healthy. -/
theorem c1_counterexample :
    run_tests wEnvOk "http://h" 0
      [⟨"/a", 200, [], "PATCH", none⟩, ⟨"/b", 200, [], "GET", none⟩] =
      (Except.error (PyExn.valueError "Unsupported HTTP method"), []) := by
  rfl

/-- C1 (amended): for every EndpointSpec whose method is not one of GET,
POST, PUT, DELETE, `test_endpoint` makes no network call, but instead of
recording verdict ERROR it raises an uncaught `ValueError "Unsupported HTTP
method"`; the failure is not contained at the per-endpoint boundary:
`run_tests` aborts at that endpoint and subsequent endpoints are not
tested. -/
theorem c1_unsupported_method (env : Request → RequestOutcome) (base ep : String)
    (st : Nat) (keys : List String) (m : String) (p : Option Json)
    (h1 : m ≠ "GET") (h2 : m ≠ "POST") (h3 : m ≠ "PUT") (h4 : m ≠ "DELETE") :
    test_endpoint env base ep st keys m p =
      (Except.error (PyExn.valueError "Unsupported HTTP method"), []) ∧
    ∀ (srv : Nat → Request → RequestOutcome) (n : Nat) (rest : List EndpointSpec),
      run_tests srv base n (⟨ep, st, keys, m, p⟩ :: rest) =
        (Except.error (PyExn.valueError "Unsupported HTTP method"), []) := by
  constructor
  · have hd := dispatch_unsupported env (base ++ ep) m p h1 h2 h3 h4
    have hte := test_endpoint_of_exn env base ep st keys m p
      (PyExn.valueError "Unsupported HTTP method") [] hd
    rw [hte]; rfl
  · intro srv n rest
    have hd' := dispatch_unsupported (srv n) (base ++ ep) m p h1 h2 h3 h4
    have hte' : test_endpoint (srv n) base ep st keys m p =
        (Except.error (PyExn.valueError "Unsupported HTTP method"), []) := by
      have := test_endpoint_of_exn (srv n) base ep st keys m p
        (PyExn.valueError "Unsupported HTTP method") [] hd'
      rw [this]; rfl
    conv_lhs => rw [run_tests]
    rw [hte']

/-- Witness for C1 (amended) at method "PATCH" against the healthy oracle. -/
theorem c1_witness :
    test_endpoint (wEnvOk 0) "http://h" "/a" 200 [] "PATCH" none =
      (Except.error (PyExn.valueError "Unsupported HTTP method"), []) ∧
    run_tests wEnvOk "http://h" 0 [⟨"/a", 200, [], "PATCH", none⟩] =
      (Except.error (PyExn.valueError "Unsupported HTTP method"), []) := by
  have h := c1_unsupported_method (wEnvOk 0) "http://h" "/a" 200 [] "PATCH" none
    (by decide) (by decide) (by decide) (by decide)
  exact ⟨h.1, h.2 wEnvOk 0 []⟩

/-- C5 counterexample: a single well-formed EndpointSpec (method GET) for
which `run_tests` produces NO result at all, refuting "exactly one TestResult
per EndpointSpec": the server answers with a declared-JSON body parsing to
the number 5, so `key in json_data` raises an uncaught TypeError and the run
aborts with zero results. -/
theorem c5_counterexample :
    run_tests
      (fun _ _ => RequestOutcome.success
        ⟨200, some "application/json", Except.ok (Json.num 5)⟩)
      "http://h" 0 [⟨"/n", 200, ["a"], "GET", none⟩] =
      (Except.error (PyExn.typeError "argument of type int is not iterable"),
       [⟨"GET", "http://h/n", none⟩]) := by
  rfl

/-- Whether every endpoint test in the list returns a result (no uncaught
exception: every method supported, and no non-iterable declared-JSON body
checked against non-empty expected keys), starting from call counter `n`. -/
def completes (srv : Nat → Request → RequestOutcome) (base : String) (n : Nat) :
    List EndpointSpec → Bool
  | [] => true
  | ep :: rest =>
    match test_endpoint (srv n) base ep.endpoint ep.expected_status ep.expected_keys
        ep.method ep.payload with
    | (Except.error _, _) => false
    | (Except.ok _, t) => completes srv base (n + t.length) rest

/-- C5 (amended): for every ordered sequence of EndpointSpec values all of
whose endpoint tests complete without an uncaught exception, `run_tests`
produces exactly one TestResult per EndpointSpec, in input order, with no
deduplication: the results list has the same length and the i-th result
carries the i-th spec's endpoint and method. -/
theorem c5_one_result_per_endpoint (srv : Nat → Request → RequestOutcome) (base : String) :
    ∀ (eps : List EndpointSpec) (n : Nat), completes srv base n eps = true →
    ∃ l : List TestResult, (run_tests srv base n eps).1 = Except.ok l ∧
      l.length = eps.length ∧
      ∀ pr ∈ l.zip eps, pr.1.endpoint = pr.2.endpoint ∧ pr.1.method = pr.2.method := by
  intro eps
  induction eps with
  | nil => exact fun n _ => ⟨[], rfl, rfl, by simp⟩
  | cons ep rest ih =>
    intro n h
    unfold completes at h
    split at h
    · simp at h
    · rename_i r t hte
      obtain ⟨l, hl, hlen, hcorr⟩ := ih (n + t.length) h
      have hrt := run_tests_cons_ok srv base n ep rest r t hte
      rcases hrest : run_tests srv base (n + t.length) rest with ⟨res, ts⟩
      rw [hrest] at hl hrt
      cases res with
      | error e => simp at hl
      | ok l' =>
        have hl' : l' = l := by simpa using hl
        subst hl'
        refine ⟨r :: l', by rw [hrt], by simp [hlen], ?_⟩
        intro pr hpr
        rw [List.zip_cons_cons] at hpr
        rcases List.mem_cons.mp hpr with hpr | hpr
        · subst hpr
          exact test_endpoint_stamps (srv n) base ep.endpoint ep.expected_status
            ep.expected_keys ep.method ep.payload r (by rw [hte])
        · exact hcorr pr hpr

/-- Witness for C5 (amended): two identical specs yield two results, in
order, against the healthy oracle. -/
theorem c5_witness :
    ∃ l : List TestResult,
      (run_tests wEnvOk "http://h" 0
        [⟨"/d", 200, [], "GET", none⟩, ⟨"/d", 200, [], "GET", none⟩]).1 = Except.ok l ∧
      l.length = ([⟨"/d", 200, [], "GET", none⟩,
                   ⟨"/d", 200, [], "GET", none⟩] : List EndpointSpec).length ∧
      ∀ pr ∈ l.zip ([⟨"/d", 200, [], "GET", none⟩,
                     ⟨"/d", 200, [], "GET", none⟩] : List EndpointSpec),
        pr.1.endpoint = pr.2.endpoint ∧ pr.1.method = pr.2.method :=
  c5_one_result_per_endpoint wEnvOk "http://h"
    [⟨"/d", 200, [], "GET", none⟩, ⟨"/d", 200, [], "GET", none⟩] 0 rfl

theorem run_tests_counter_irrelevant (srv : Nat → Request → RequestOutcome) (base : String)
    (hdet : ∀ i j r, srv i r = srv j r) :
    ∀ (eps : List EndpointSpec) (n n' : Nat),
      run_tests srv base n eps = run_tests srv base n' eps := by
  intro eps
  induction eps with
  | nil => intro n n'; rfl
  | cons ep rest ih =>
    intro n n'
    have hsrv : srv n = srv n' := funext (fun r => hdet n n' r)
    unfold run_tests
    rw [hsrv]
    rcases hte : test_endpoint (srv n') base ep.endpoint ep.expected_status ep.expected_keys
        ep.method ep.payload with ⟨res, t⟩
    cases res with
    | error e => rfl
    | ok r =>
      show (match run_tests srv base (n + t.length) rest with
            | (Except.error e, ts) => ((Except.error e : Except PyExn (List TestResult)), t ++ ts)
            | (Except.ok l, ts) => (Except.ok (r :: l), t ++ ts)) =
           (match run_tests srv base (n' + t.length) rest with
            | (Except.error e, ts) => ((Except.error e : Except PyExn (List TestResult)), t ++ ts)
            | (Except.ok l, ts) => (Except.ok (r :: l), t ++ ts))
      rw [ih (n + t.length) (n' + t.length)]

/-- C8: against a deterministic server (the response to each request is a
function of the request alone, independent of the call index), running
`run_tests` a second time on the same endpoint list — with the oracle's call
counter continuing where the first run ended — yields a result identical to
the first run's, requests included. -/
theorem c8_deterministic_rerun (srv : Nat → Request → RequestOutcome) (base : String)
    (eps : List EndpointSpec) (hdet : ∀ i j r, srv i r = srv j r) :
    run_tests srv base ((run_tests srv base 0 eps).2.length) eps =
      run_tests srv base 0 eps :=
  run_tests_counter_irrelevant srv base hdet eps _ 0

/-- Witness for C8: the healthy constant oracle is deterministic, so the
rerun equality holds at a concrete endpoint list. -/
theorem c8_witness :
    run_tests wEnvOk "http://h"
      ((run_tests wEnvOk "http://h" 0 [⟨"/d", 200, ["a"], "GET", none⟩]).2.length)
      [⟨"/d", 200, ["a"], "GET", none⟩] =
      run_tests wEnvOk "http://h" 0 [⟨"/d", 200, ["a"], "GET", none⟩] :=
  c8_deterministic_rerun wEnvOk "http://h" [⟨"/d", 200, ["a"], "GET", none⟩]
    (fun _ _ _ => rfl)
